import Mathlib

/-!
Shallow embedding of the scan-report classification and exit-code policy of
`cs_scanimage.py` (container-image-scan), together with proofs checking the
natural-language specification against it.

The report payload is dynamically typed JSON; we model it with a `Json`
inductive.  Python operations that can raise (`d[k]` subscripting, the `.get`
method on a non-dict, `.lower()` on a non-string, iteration over a
non-iterable) are modelled in the `Except PyErr` monad; `except KeyError`
handlers in the source become matches on `PyErr.keyError`.
-/

/-- Exceptions the modelled Python code can raise. -/
inductive PyErr where
  | keyError
  | typeError
  | attributeError
deriving DecidableEq

/-- JSON-like dynamic values of the report payload. -/
inductive Json where
  | null
  | bool (b : Bool)
  | num (n : Int)
  | str (s : String)
  | arr (elems : List Json)
  | obj (fields : List (String × Json))

/-- A Python dict with string keys (the shape of `ScanReport`, which
subclasses `dict`). -/
abbrev PyDict := List (String × Json)

/-- First-match association-list lookup (Python dict lookup; our assoc lists
play the role of dicts, with the first binding of a key the authoritative
one). -/
def jlookup : PyDict → String → Option Json
  | [], _ => none
  | (k, v) :: rest, key => if k = key then some v else jlookup rest key

/-- Python `d[k]` on a dynamic value: a dict yields the mapped value or
raises `KeyError`; any non-dict raises `TypeError` when indexed by a
string. -/
def pySubscript (v : Json) (k : String) : Except PyErr Json :=
  match v with
  | Json.obj fs =>
    match jlookup fs k with
    | some x => Except.ok x
    | none => Except.error PyErr.keyError
  | _ => Except.error PyErr.typeError

/-- Python `d.get(k)`: `None` for a missing key; raises `AttributeError`
when the receiver is not a dict.  `none` models both "absent" and, at use
sites that test `is None`, a stored `null`. -/
def pyGetOpt (v : Json) (k : String) : Except PyErr (Option Json) :=
  match v with
  | Json.obj fs => Except.ok (jlookup fs k)
  | _ => Except.error PyErr.attributeError

/-- Python `d.get(k, default)`: the stored value (even `null`) when the key
is present, the default otherwise; raises `AttributeError` on a
non-dict receiver. -/
def pyGetD (v : Json) (k : String) (d : Json) : Except PyErr Json :=
  match v with
  | Json.obj fs => Except.ok ((jlookup fs k).getD d)
  | _ => Except.error PyErr.attributeError

/-- Python's `str.lower()` restricted to basic latin letters (the severity
vocabulary of the source is ASCII).  `Char.toLower` is exactly the
65..90 ↦ +32 map. -/
def strLower (s : String) : String := String.mk (s.data.map Char.toLower)

/-- ASCII uppercasing, used to state the case-insensitivity property. -/
def strUpper (s : String) : String := String.mk (s.data.map Char.toUpper)

/-- Python `x.lower()` on a dynamic value: only strings have `lower`;
anything else raises `AttributeError`. -/
def pyLower : Json → Except PyErr String
  | Json.str s => Except.ok (strLower s)
  | _ => Except.error PyErr.attributeError

/-- Python `for x in v`: lists iterate their elements, strings their
one-character substrings, dicts their keys; other values raise
`TypeError`. -/
def pyIter : Json → Except PyErr (List Json)
  | Json.arr xs => Except.ok xs
  | Json.str s => Except.ok (s.data.map fun c => Json.str (String.mk [c]))
  | Json.obj fs => Except.ok (fs.map fun kv => Json.str kv.1)
  | _ => Except.error PyErr.typeError

/-- `self[key]` on the `ScanReport` dict itself. -/
def reportSubscript (report : PyDict) (k : String) : Except PyErr Json :=
  match jlookup report k with
  | some x => Except.ok x
  | none => Except.error PyErr.keyError

/-- `ScanReport.vuln_str_key_1`. -/
def vuln_str_key_1 : String := "Vulnerabilities"

/-- `ScanReport.detect_str_key`. -/
def detect_str_key : String := "Detections"

/-- `ScanReport.type_malware`. -/
def type_malware : String := "malware"

/-- `ScanReport.type_secret`. -/
def type_secret : String := "secret"

/-- `ScanReport.type_misconfig`. -/
def type_misconfig : String := "misconfiguration"

/-- `ScanReport.type_cis`. -/
def type_cis : String := "cis"

namespace ScanStatusCode

/-- `ScanStatusCode.Vulnerability.value`. -/
def Vulnerability : Nat := 1

/-- `ScanStatusCode.Malware.value`. -/
def Malware : Nat := 2

/-- `ScanStatusCode.Secrets.value`. -/
def Secrets : Nat := 3

/-- `ScanStatusCode.Success.value`. -/
def Success : Nat := 0

/-- `ScanStatusCode.ScriptFailure.value`. -/
def ScriptFailure : Nat := 10

end ScanStatusCode

/-- Severity points of one resolved (already lowercased) label: the four
`if severity.lower() == ...` increments of `get_alerts_vuln` (lines
251-258); the `if`s are independent, hence the sum shape. -/
def sevPoints (sev : String) : Nat :=
  (if sev = "low" then 20 else 0) + (if sev = "medium" then 100 else 0) +
    (if sev = "high" then 500 else 0) + (if sev = "critical" then 2000 else 0)

/-- Step 3 of the severity fallback chain (lines 237-239):
`cvss_v2 = details.get("cvss_v2_score", {}); severity = cvss_v2.get("severity", "")`. -/
def resolveSeverityV2 (ds : PyDict) : Except PyErr Json :=
  pyGetD ((jlookup ds "cvss_v2_score").getD (Json.obj [])) "severity" (Json.str "")

/-- Step 2 of the severity fallback chain (lines 234-236):
`cvss_v3 = details.get("cvss_v3_score", {}); severity = cvss_v3.get("severity")`,
falling through to step 3 when the result `is None`. -/
def resolveSeverityV3 (ds : PyDict) : Except PyErr Json :=
  match pyGetOpt ((jlookup ds "cvss_v3_score").getD (Json.obj [])) "severity" with
  | Except.error e => Except.error e
  | Except.ok none => resolveSeverityV2 ds
  | Except.ok (some Json.null) => resolveSeverityV2 ds
  | Except.ok (some v) => Except.ok v

/-- Severity fallback chain of `get_alerts_vuln` for a dict `Details`
(lines 233-239): `severity = details.get("severity")`, falling through
when it `is None` (absent key or stored `null` alike). -/
def resolveSeverity (ds : PyDict) : Except PyErr Json :=
  match jlookup ds "severity" with
  | some Json.null => resolveSeverityV3 ds
  | some v => Except.ok v
  | none => resolveSeverityV3 ds

/-- Body of the `for vulnerability in vulnerabilities` loop of
`get_alerts_vuln` (lines 228-258) for one entry, returning the score
increment: wrapper subscript, `CVEID`/`Details`/`Product` accesses (in
source order, for error fidelity), severity resolution, and the four
point increments. -/
def vulnEntryScore (vulnerability : Json) : Except PyErr Nat :=
  match pySubscript vulnerability "Vulnerability" with
  | Except.error e => Except.error e
  | Except.ok vuln =>
    match pyGetD vuln "CVEID" (Json.str "CVE-unknown") with
    | Except.error e => Except.error e
    | Except.ok _cve =>
      match pyGetOpt vuln "Details" with
      | Except.error e => Except.error e
      | Except.ok details =>
        match (match details with
               | some (Json.obj ds) => resolveSeverity ds
               | _ => Except.ok (Json.str "")) with
        | Except.error e => Except.error e
        | Except.ok sevRaw =>
          match pyGetD vuln "Product" (Json.obj []) with
          | Except.error e => Except.error e
          | Except.ok product =>
            match pyGetD product "PackageSource" product with
            | Except.error e => Except.error e
            | Except.ok _affects =>
              match pyLower sevRaw with
              | Except.error e => Except.error e
              | Except.ok sev => Except.ok (sevPoints sev)

/-- The `vuln_score` accumulation across the loop of `get_alerts_vuln`. -/
def scoreList : List Json → Nat → Except PyErr Nat
  | [], acc => Except.ok acc
  | v :: rest, acc =>
    match vulnEntryScore v with
    | Except.error e => Except.error e
    | Except.ok s => scoreList rest (acc + s)

/-- `ScanReport.get_alerts_vuln` (lines 218-259): subscript the
`Vulnerabilities` key (KeyError when absent), return 0 when it `is None`,
otherwise iterate and accumulate. -/
def getAlertsVuln (report : PyDict) : Except PyErr Nat :=
  match reportSubscript report vuln_str_key_1 with
  | Except.error e => Except.error e
  | Except.ok Json.null => Except.ok 0
  | Except.ok v =>
    match pyIter v with
    | Except.error e => Except.error e
    | Except.ok items => scoreList items 0

/-- `detection["Detection"]["Type"].lower()` under the `except KeyError:
continue` handler of the three detection loops: `Except.ok none` models a
caught `KeyError` (entry skipped); `TypeError`/`AttributeError` escape. -/
def detTypeLower (detection : Json) : Except PyErr (Option String) :=
  match pySubscript detection "Detection" with
  | Except.error PyErr.keyError => Except.ok none
  | Except.error e => Except.error e
  | Except.ok d =>
    match pySubscript d "Type" with
    | Except.error PyErr.keyError => Except.ok none
    | Except.error e => Except.error e
    | Except.ok t =>
      match pyLower t with
      | Except.error e => Except.error e
      | Except.ok s => Except.ok (some s)

/-- `t == self.type_malware` comparison of `get_alerts_malware`. -/
def isMalwareType (t : String) : Bool := t == type_malware

/-- `t == self.type_secret` comparison of `get_alerts_secrets`. -/
def isSecretType (t : String) : Bool := t == type_secret

/-- `t in [self.type_misconfig, self.type_cis]` comparison of
`get_alerts_misconfig`. -/
def isMisconfigType (t : String) : Bool := t == type_misconfig || t == type_cis

/-- The shared shape of the three detection loops (lines 268-277, 286-295,
304-316): `det_code = 0`, scan in order, on the first matching type assign
`code` and `break`; a caught `KeyError` means `continue`. -/
def detLoop (dets : List Json) (p : String → Bool) (code : Nat) : Except PyErr Nat :=
  match dets with
  | [] => Except.ok 0
  | d :: rest =>
    match detTypeLower d with
    | Except.error e => Except.error e
    | Except.ok none => detLoop rest p code
    | Except.ok (some t) => if p t then Except.ok code else detLoop rest p code

/-- `ScanReport.get_alerts_malware` (lines 264-277): on a match assigns
`ScanStatusCode.Malware.value`. -/
def getAlertsMalware (report : PyDict) : Except PyErr Nat :=
  match reportSubscript report detect_str_key with
  | Except.error e => Except.error e
  | Except.ok Json.null => Except.ok 0
  | Except.ok v =>
    match pyIter v with
    | Except.error e => Except.error e
    | Except.ok items => detLoop items isMalwareType ScanStatusCode.Malware

/-- `ScanReport.get_alerts_secrets` (lines 282-295): on a match assigns
`ScanStatusCode.Secrets.value`. -/
def getAlertsSecrets (report : PyDict) : Except PyErr Nat :=
  match reportSubscript report detect_str_key with
  | Except.error e => Except.error e
  | Except.ok Json.null => Except.ok 0
  | Except.ok v =>
    match pyIter v with
    | Except.error e => Except.error e
    | Except.ok items => detLoop items isSecretType ScanStatusCode.Secrets

/-- `ScanReport.get_alerts_misconfig` (lines 300-316): on a match the
source assigns `ScanStatusCode.Success.value` (which is 0), not a distinct
alert code. -/
def getAlertsMisconfig (report : PyDict) : Except PyErr Nat :=
  match reportSubscript report detect_str_key with
  | Except.error e => Except.error e
  | Except.ok Json.null => Except.ok 0
  | Except.ok v =>
    match pyIter v with
    | Except.error e => Except.error e
    | Except.ok items => detLoop items isMisconfigType ScanStatusCode.Success

/-- `ScanReport.status_code` (lines 204-209): bitwise OR of the four
sub-codes (dead code in `main`, but specified). -/
def statusCode (report : PyDict) : Except PyErr Nat :=
  match getAlertsVuln report with
  | Except.error e => Except.error e
  | Except.ok v =>
    match getAlertsMalware report with
    | Except.error e => Except.error e
    | Except.ok m =>
      match getAlertsSecrets report with
      | Except.error e => Except.error e
      | Except.ok s =>
        match getAlertsMisconfig report with
        | Except.error e => Except.error e
        | Except.ok c => Except.ok (v ||| m ||| s ||| c)

/-- The status resolution of `main` (lines 565-584): strict priority
secrets > malware > threshold, given the classifier outputs and the
caller-supplied integer threshold (`int(score)`). -/
def resolveStatus (fSecrets fMalware fVulnScore : Nat) (threshold : Int) : Nat :=
  if fSecrets = ScanStatusCode.Secrets then ScanStatusCode.Secrets
  else if fMalware = ScanStatusCode.Malware then ScanStatusCode.Malware
  else if (fVulnScore : Int) ≥ threshold then ScanStatusCode.Vulnerability
  else ScanStatusCode.Success

/-- The classification-and-exit part of `main` (lines 560-584 together with
the `except` clauses 586-594): the four scans run in source order (vuln,
secrets, malware, misconfig — misconfig's result is discarded), any
uncaught exception yields `ScriptFailure` (10). -/
def classifyExit (report : PyDict) (threshold : Int) : Nat :=
  match getAlertsVuln report with
  | Except.error _ => ScanStatusCode.ScriptFailure
  | Except.ok fVuln =>
    match getAlertsSecrets report with
    | Except.error _ => ScanStatusCode.ScriptFailure
    | Except.ok fSecrets =>
      match getAlertsMalware report with
      | Except.error _ => ScanStatusCode.ScriptFailure
      | Except.ok fMalware =>
        match getAlertsMisconfig report with
        | Except.error _ => ScanStatusCode.ScriptFailure
        | Except.ok _ => resolveStatus fSecrets fMalware fVuln threshold

/-- Failure of `get_scanreport`: `RetryExhaustedError`, whose message names
the attempt count (line 186-188). -/
inductive FetchErr where
  | retryExhausted (count : Nat)

/-- The polling loop of `get_scanreport` (lines 174-188), with effects made
explicit: `resp` maps each attempt index to the remote `(status_code, body)`
pair; the returned list records the `time.sleep` durations performed, in
order (one fixed 10-second sleep before each call).  Structural recursion
on the remaining attempt budget (`fuel = retry_count - count`). -/
def fetchGo (resp : Nat → Nat × Json) (retryCount count : Nat) :
    Nat → List Nat × Except FetchErr Json
  | 0 => ([], Except.error (FetchErr.retryExhausted retryCount))
  | fuel + 1 =>
    if (resp count).1 ≠ 200 then
      (10 :: (fetchGo resp retryCount (count + 1) fuel).1,
        (fetchGo resp retryCount (count + 1) fuel).2)
    else ([10], Except.ok (resp count).2)

/-- `get_scanreport` (lines 163-188): poll up to `retryCount` times. -/
def getScanreport (resp : Nat → Nat × Json) (retryCount : Nat) :
    List Nat × Except FetchErr Json :=
  fetchGo resp retryCount 0 retryCount

/-- `main` from the fetch onwards (lines 550-594): a fetch failure, a
non-dict report body, or a classification exception all fall into the
`except` clauses and exit `ScriptFailure`; otherwise the report is
classified. -/
def runMain (resp : Nat → Nat × Json) (retryCount : Nat) (threshold : Int) : Nat :=
  match (getScanreport resp retryCount).2 with
  | Except.error _ => ScanStatusCode.ScriptFailure
  | Except.ok (Json.obj fs) => classifyExit fs threshold
  | Except.ok _ => ScanStatusCode.ScriptFailure

/-! ## Spec-side definitions (from the specification's words, for refinement
comparison with the source-side functions above) -/

/-- Spec §4.3: map a resolved label, case-insensitively, to points
(low=20, medium=100, high=500, critical=2000, anything else 0).  Takes the
already-lowercased label. -/
def specPointsOf (s : String) : Nat :=
  if s = "low" then 20
  else if s = "medium" then 100
  else if s = "high" then 500
  else if s = "critical" then 2000
  else 0

/-- Spec §3 `DetectionFinding.type`: the detection's type string, `none`
when the nesting or the field is missing or not a string. -/
def detSpecType (d : Json) : Option String :=
  match d with
  | Json.obj fs =>
    match jlookup fs "Detection" with
    | some (Json.obj gs) =>
      match jlookup gs "Type" with
      | some (Json.str t) => some t
      | _ => none
    | _ => none
  | _ => none

/-- Does a detection's type, compared case-insensitively, satisfy `p`
(a finding missing its type is non-matching)? -/
def specDetIs (p : String → Bool) (d : Json) : Bool :=
  match detSpecType d with
  | some t => p (strLower t)
  | none => false

/-- Spec §4.3 `has_malware`. -/
def specHasMalware (dets : List Json) : Bool := dets.any (specDetIs isMalwareType)

/-- Spec §4.3 `has_secrets`. -/
def specHasSecrets (dets : List Json) : Bool := dets.any (specDetIs isSecretType)

/-- Spec §4.3 `has_misconfig`. -/
def specHasMisconfig (dets : List Json) : Bool := dets.any (specDetIs isMisconfigType)

/-- A vulnerability finding carrying only a direct `severity` label. -/
def mkFinding (sev : String) : Json :=
  Json.obj [("Vulnerability", Json.obj [("Details", Json.obj [("severity", Json.str sev)])])]

/-- The score contribution of one finding (0 for an entry on which the
source would raise — used only under hypotheses ruling that out). -/
def entryVal (v : Json) : Nat :=
  match vulnEntryScore v with
  | Except.ok k => k
  | Except.error _ => 0

/-! ## Well-formedness predicates for the totality analysis (C7) -/

/-- A severity-bearing field that the source's fallback chain can consume
without raising: absent, `null`, or a string. -/
def wfSevField : Option Json → Bool
  | none => true
  | some Json.null => true
  | some (Json.str _) => true
  | some _ => false

/-- A `cvss_*_score` wrapper the chain can consume: absent, or a dict whose
`severity` is absent or a string (a stored `null` under `cvss_v2_score`
would flow into `.lower()` and raise). -/
def wfWrapper (k : String) (ds : PyDict) : Bool :=
  match jlookup ds k with
  | none => true
  | some (Json.obj gs) =>
    match jlookup gs "severity" with
    | none => true
    | some (Json.str _) => true
    | some Json.null => k = "cvss_v3_score"
    | some _ => false
  | some _ => false

/-- `Details` dicts on which severity resolution is total. -/
def wfDetails (ds : PyDict) : Bool :=
  wfSevField (jlookup ds "severity") && wfWrapper "cvss_v3_score" ds &&
    wfWrapper "cvss_v2_score" ds

/-- Not a dict (including absent): the source's `isinstance(details, dict)`
else-branch. -/
def notDictOpt : Option Json → Bool
  | some (Json.obj _) => false
  | _ => true

/-- A `Product` field `product.get("PackageSource", product)` tolerates:
absent or a dict. -/
def wfProduct : Option Json → Bool
  | none => true
  | some (Json.obj _) => true
  | _ => false

/-- Vulnerability entries on which `get_alerts_vuln`'s loop body is total:
a dict with a dict `"Vulnerability"` wrapper, a well-formed-or-non-dict
`Details`, a resolvable severity, and a well-formed `Product`. -/
def wfEntry (v : Json) : Bool :=
  match v with
  | Json.obj fs =>
    match jlookup fs "Vulnerability" with
    | some (Json.obj ws) =>
      (match jlookup ws "Details" with
       | some (Json.obj ds) => wfDetails ds
       | _ => true) && wfProduct (jlookup ws "Product")
    | _ => false
  | _ => false

/-! ## Helper lemmas -/

theorem toNat_char_ofNat_sub (n : Nat) (h1 : 97 ≤ n) (h2 : n ≤ 122) :
    (Char.ofNat (n - 32)).toNat = n - 32 := by
  have hv : (n - 32).isValidChar := Or.inl (by omega)
  rw [Char.ofNat, dif_pos hv]
  simp [Char.ofNatAux, Char.toNat, UInt32.toNat]

theorem toLower_toUpper_char (c : Char) : (Char.toUpper c).toLower = c.toLower := by
  by_cases h : 97 ≤ c.toNat ∧ c.toNat ≤ 122
  · have hu : Char.toUpper c = Char.ofNat (c.toNat - 32) := by
      unfold Char.toUpper
      exact if_pos ⟨h.1, h.2⟩
    have ht := toNat_char_ofNat_sub c.toNat h.1 h.2
    rw [hu]
    unfold Char.toLower
    rw [ht]
    rw [if_pos (show 65 ≤ c.toNat - 32 ∧ c.toNat - 32 ≤ 90 by omega)]
    rw [if_neg (show ¬(65 ≤ c.toNat ∧ c.toNat ≤ 90) by omega)]
    rw [show c.toNat - 32 + 32 = c.toNat by omega, Char.ofNat_toNat]
  · have hu : Char.toUpper c = c := by
      unfold Char.toUpper
      exact if_neg h
    rw [hu]

theorem strLower_strUpper (s : String) : strLower (strUpper s) = strLower s := by
  unfold strLower strUpper
  simp [List.map_map, Function.comp_def, toLower_toUpper_char]

theorem sevPoints_eq_specPointsOf (s : String) : sevPoints s = specPointsOf s := by
  unfold sevPoints specPointsOf
  by_cases h1 : s = "low" <;> by_cases h2 : s = "medium" <;>
    by_cases h3 : s = "high" <;> by_cases h4 : s = "critical" <;>
    simp_all

theorem detTypeLower_ok_eq (d : Json) (o : Option String)
    (h : detTypeLower d = Except.ok o) : o = (detSpecType d).map strLower := by
  cases d with
  | obj fs =>
    unfold detTypeLower detSpecType pySubscript at *
    cases hd : jlookup fs "Detection" with
    | none => simp [hd] at h; simp [hd, ← h]
    | some v =>
      cases v with
      | obj gs =>
        cases ht : jlookup gs "Type" with
        | none => simp [hd, ht] at h; simp [hd, ht, ← h]
        | some t =>
          cases t with
          | str s => simp [hd, ht, pyLower] at h; simp [hd, ht, ← h]
          | null => simp [hd, ht, pyLower] at h
          | bool b => simp [hd, ht, pyLower] at h
          | num n => simp [hd, ht, pyLower] at h
          | arr xs => simp [hd, ht, pyLower] at h
          | obj hs => simp [hd, ht, pyLower] at h
      | null => simp [hd] at h
      | bool b => simp [hd] at h
      | num n => simp [hd] at h
      | str s => simp [hd] at h
      | arr xs => simp [hd] at h
  | null => simp [detTypeLower, pySubscript] at h
  | bool b => simp [detTypeLower, pySubscript] at h
  | num n => simp [detTypeLower, pySubscript] at h
  | str s => simp [detTypeLower, pySubscript] at h
  | arr xs => simp [detTypeLower, pySubscript] at h

theorem detLoop_ok (p : String → Bool) (code : Nat) :
    ∀ dets : List Json, (∀ d ∈ dets, ∃ o, detTypeLower d = Except.ok o) →
      detLoop dets p code = Except.ok (if dets.any (specDetIs p) then code else 0) := by
  intro dets
  induction dets with
  | nil => intro _; simp [detLoop]
  | cons d rest ih =>
    intro h
    obtain ⟨o, ho⟩ := h d (List.mem_cons_self d rest)
    have hrest : ∀ x ∈ rest, ∃ o, detTypeLower x = Except.ok o := by
      intro x hx; exact h x (List.mem_cons_of_mem d hx)
    have hoe := detTypeLower_ok_eq d o ho
    unfold detLoop
    rw [ho]
    cases hspec : detSpecType d with
    | none =>
      rw [hoe, hspec]
      simp only [Option.map_none']
      rw [ih hrest]
      simp [List.any_cons, specDetIs, hspec]
    | some t =>
      rw [hoe, hspec]
      simp only [Option.map_some']
      by_cases hp : p (strLower t)
      · simp only [hp, if_true]
        simp [List.any_cons, specDetIs, hspec, hp]
      · simp only [hp, if_false]
        rw [ih hrest]
        simp [List.any_cons, specDetIs, hspec, hp]

theorem detLoop_zero (p : String → Bool) :
    ∀ (dets : List Json) (n : Nat), detLoop dets p 0 = Except.ok n → n = 0 := by
  intro dets
  induction dets with
  | nil =>
    intro n h
    simp [detLoop] at h
    omega
  | cons d rest ih =>
    intro n h
    unfold detLoop at h
    cases hd : detTypeLower d with
    | error e => simp [hd] at h
    | ok o =>
      simp only [hd] at h
      cases o with
      | none => exact ih n h
      | some t =>
        by_cases hp : p t
        · simp [hp] at h
          omega
        · simp only [hp, if_false, Bool.false_eq_true] at h
          exact ih n h

theorem scoreList_ok :
    ∀ (items : List Json) (acc : Nat),
      (∀ v ∈ items, ∃ k, vulnEntryScore v = Except.ok k) →
      scoreList items acc = Except.ok (acc + (items.map entryVal).sum) := by
  intro items
  induction items with
  | nil => intro acc _; simp [scoreList]
  | cons v rest ih =>
    intro acc h
    obtain ⟨k, hk⟩ := h v (List.mem_cons_self v rest)
    unfold scoreList
    rw [hk]
    show scoreList rest (acc + k) = _
    rw [ih (acc + k) (fun x hx => h x (List.mem_cons_of_mem v hx))]
    simp [entryVal, hk, Nat.add_assoc]

theorem getAlertsVuln_arr (report : PyDict) (vs : List Json)
    (h : jlookup report "Vulnerabilities" = some (Json.arr vs)) :
    getAlertsVuln report = scoreList vs 0 := by
  unfold getAlertsVuln reportSubscript vuln_str_key_1
  rw [h]
  rfl

theorem getAlertsMalware_arr (report : PyDict) (dets : List Json)
    (h : jlookup report "Detections" = some (Json.arr dets)) :
    getAlertsMalware report = detLoop dets isMalwareType ScanStatusCode.Malware := by
  unfold getAlertsMalware reportSubscript detect_str_key
  rw [h]
  rfl

theorem getAlertsSecrets_arr (report : PyDict) (dets : List Json)
    (h : jlookup report "Detections" = some (Json.arr dets)) :
    getAlertsSecrets report = detLoop dets isSecretType ScanStatusCode.Secrets := by
  unfold getAlertsSecrets reportSubscript detect_str_key
  rw [h]
  rfl

theorem getAlertsMisconfig_arr (report : PyDict) (dets : List Json)
    (h : jlookup report "Detections" = some (Json.arr dets)) :
    getAlertsMisconfig report = detLoop dets isMisconfigType ScanStatusCode.Success := by
  unfold getAlertsMisconfig reportSubscript detect_str_key
  rw [h]
  rfl

theorem resolveSeverityV2_wf (ds : PyDict) (h : wfWrapper "cvss_v2_score" ds = true) :
    ∃ s, resolveSeverityV2 ds = Except.ok (Json.str s) := by
  unfold wfWrapper at h
  unfold resolveSeverityV2
  cases h2 : jlookup ds "cvss_v2_score" with
  | none => exact ⟨"", rfl⟩
  | some v =>
    simp only [h2] at h
    cases v with
    | obj hs =>
      cases hs2 : jlookup hs "severity" with
      | none => exact ⟨"", by simp [pyGetD, hs2]⟩
      | some w =>
        simp only [hs2] at h
        cases w with
        | str s => exact ⟨s, by simp [pyGetD, hs2]⟩
        | null => simp at h
        | bool b => simp at h
        | num n => simp at h
        | arr xs => simp at h
        | obj gs => simp at h
    | null => simp at h
    | bool b => simp at h
    | num n => simp at h
    | str s => simp at h
    | arr xs => simp at h

theorem resolveSeverityV3_wf (ds : PyDict) (h3 : wfWrapper "cvss_v3_score" ds = true)
    (h2 : wfWrapper "cvss_v2_score" ds = true) :
    ∃ s, resolveSeverityV3 ds = Except.ok (Json.str s) := by
  unfold wfWrapper at h3
  unfold resolveSeverityV3
  cases hl : jlookup ds "cvss_v3_score" with
  | none =>
    obtain ⟨s, hs⟩ := resolveSeverityV2_wf ds h2
    exact ⟨s, by simp [pyGetOpt, jlookup, hs]⟩
  | some v =>
    simp only [hl] at h3
    cases v with
    | obj gs =>
      cases hg : jlookup gs "severity" with
      | none =>
        obtain ⟨s, hs⟩ := resolveSeverityV2_wf ds h2
        exact ⟨s, by simp [pyGetOpt, hg, hs]⟩
      | some w =>
        simp only [hg] at h3
        cases w with
        | str s => exact ⟨s, by simp [pyGetOpt, hg]⟩
        | null =>
          obtain ⟨s, hs⟩ := resolveSeverityV2_wf ds h2
          exact ⟨s, by simp [pyGetOpt, hg, hs]⟩
        | bool b => simp at h3
        | num n => simp at h3
        | arr xs => simp at h3
        | obj hs => simp at h3
    | null => simp at h3
    | bool b => simp at h3
    | num n => simp at h3
    | str s => simp at h3
    | arr xs => simp at h3

theorem resolveSeverity_wf (ds : PyDict) (h : wfDetails ds = true) :
    ∃ s, resolveSeverity ds = Except.ok (Json.str s) := by
  unfold wfDetails at h
  rw [Bool.and_eq_true, Bool.and_eq_true] at h
  obtain ⟨⟨hsev, h3⟩, h2⟩ := h
  unfold wfSevField at hsev
  unfold resolveSeverity
  cases hl : jlookup ds "severity" with
  | none => exact resolveSeverityV3_wf ds h3 h2
  | some v =>
    simp only [hl] at hsev
    cases v with
    | str s => exact ⟨s, rfl⟩
    | null => exact resolveSeverityV3_wf ds h3 h2
    | bool b => simp at hsev
    | num n => simp at hsev
    | arr xs => simp at hsev
    | obj fs => simp at hsev

theorem vulnEntryScore_obj (fs ws : PyDict) (hw : jlookup fs "Vulnerability" = some (Json.obj ws))
    (sevRaw : Json)
    (hsev : (match jlookup ws "Details" with
             | some (Json.obj ds) => resolveSeverity ds
             | _ => Except.ok (Json.str "")) = Except.ok sevRaw)
    (hprod : wfProduct (jlookup ws "Product") = true) :
    vulnEntryScore (Json.obj fs) =
      match pyLower sevRaw with
      | Except.error e => Except.error e
      | Except.ok sev => Except.ok (sevPoints sev) := by
  unfold vulnEntryScore pySubscript
  simp only [hw]
  unfold wfProduct at hprod
  cases hp : jlookup ws "Product" with
  | none =>
    simp only [pyGetD, pyGetOpt, hp, hsev]
    rfl
  | some p =>
    simp only [hp] at hprod
    cases p with
    | obj ps =>
      simp only [pyGetD, pyGetOpt, hp, hsev]
      rfl
    | null => simp at hprod
    | bool b => simp at hprod
    | num n => simp at hprod
    | str s => simp at hprod
    | arr xs => simp at hprod

theorem vulnEntryScore_wf (v : Json) (h : wfEntry v = true) :
    ∃ k, vulnEntryScore v = Except.ok k := by
  unfold wfEntry at h
  cases v with
  | obj fs =>
    cases hw : jlookup fs "Vulnerability" with
    | none => simp only [hw] at h; exact absurd h (by simp)
    | some w =>
      simp only [hw] at h
      cases w with
      | obj ws =>
        rw [Bool.and_eq_true] at h
        obtain ⟨hdet, hprod⟩ := h
        have hsev : ∃ sevRaw, (match jlookup ws "Details" with
            | some (Json.obj ds) => resolveSeverity ds
            | _ => Except.ok (Json.str "")) = Except.ok (Json.str sevRaw) := by
          cases hd : jlookup ws "Details" with
          | none => exact ⟨"", rfl⟩
          | some d =>
            simp only [hd] at hdet
            cases d with
            | obj ds => exact resolveSeverity_wf ds hdet
            | null => exact ⟨"", rfl⟩
            | bool b => exact ⟨"", rfl⟩
            | num n => exact ⟨"", rfl⟩
            | str s => exact ⟨"", rfl⟩
            | arr xs => exact ⟨"", rfl⟩
        obtain ⟨sevRaw, hs⟩ := hsev
        refine ⟨sevPoints (strLower sevRaw), ?_⟩
        rw [vulnEntryScore_obj fs ws hw (Json.str sevRaw) hs hprod]
        rfl
      | null => simp at h
      | bool b => simp at h
      | num n => simp at h
      | str s => simp at h
      | arr xs => simp at h
  | null => simp at h
  | bool b => simp at h
  | num n => simp at h
  | str s => simp at h
  | arr xs => simp at h

theorem fetchGo_allFail (resp : Nat → Nat × Json) (N : Nat) :
    ∀ (fuel count : Nat), (∀ i, count ≤ i → i < count + fuel → (resp i).1 ≠ 200) →
      fetchGo resp N count fuel =
        (List.replicate fuel 10, Except.error (FetchErr.retryExhausted N)) := by
  intro fuel
  induction fuel with
  | zero => intro count _; rfl
  | succ f ih =>
    intro count h
    have hc : (resp count).1 ≠ 200 := h count (Nat.le_refl _) (by omega)
    unfold fetchGo
    rw [if_pos hc, ih (count + 1) (fun i h1 h2 => h i (by omega) (by omega))]
    simp [List.replicate_succ]

theorem fetchGo_firstOk (resp : Nat → Nat × Json) (N : Nat) :
    ∀ (fuel k count : Nat), k < fuel → (resp (count + k)).1 = 200 →
      (∀ j, j < k → (resp (count + j)).1 ≠ 200) →
      fetchGo resp N count fuel =
        (List.replicate (k + 1) 10, Except.ok (resp (count + k)).2) := by
  intro fuel
  induction fuel with
  | zero => intro k count hk _ _; omega
  | succ f ih =>
    intro k count hk h200 hprev
    cases k with
    | zero =>
      have h200' : (resp count).1 = 200 := by simpa using h200
      unfold fetchGo
      rw [if_neg (by simp [h200'])]
      simp [List.replicate_succ]
    | succ j =>
      have hc : (resp count).1 ≠ 200 := by simpa using hprev 0 (by omega)
      have h200' : (resp (count + 1 + j)).1 = 200 := by
        rw [show count + 1 + j = count + (j + 1) by omega]
        exact h200
      have hprev' : ∀ l, l < j → (resp (count + 1 + l)).1 ≠ 200 := by
        intro l hl
        rw [show count + 1 + l = count + (l + 1) by omega]
        exact hprev (l + 1) (by omega)
      unfold fetchGo
      rw [if_pos hc, ih j (count + 1) (by omega) h200' hprev']
      rw [show count + 1 + j = count + (j + 1) by omega]
      simp [List.replicate_succ]

theorem getAlertsMisconfig_zero (report : PyDict) (n : Nat)
    (h : getAlertsMisconfig report = Except.ok n) : n = 0 := by
  unfold getAlertsMisconfig at h
  cases hr : reportSubscript report detect_str_key with
  | error e => rw [hr] at h; simp at h
  | ok v =>
    rw [hr] at h
    cases v with
    | null => simp at h; omega
    | arr xs =>
      simp only [pyIter] at h
      exact detLoop_zero isMisconfigType xs n h
    | str s =>
      simp only [pyIter] at h
      exact detLoop_zero isMisconfigType _ n h
    | obj fs =>
      simp only [pyIter] at h
      exact detLoop_zero isMisconfigType _ n h
    | bool b => simp [pyIter] at h
    | num m => simp [pyIter] at h

/-! ## Concrete reports used in counterexamples and witnesses -/

/-- A detection whose `Detection.Type` is the string `t`. -/
def mkDetection (t : String) : Json :=
  Json.obj [("Detection", Json.obj [("Type", Json.str t)])]

/-- A detection whose `Detection.Type` is present but is a number, not a
string. -/
def badTypeDetection : Json := Json.obj [("Detection", Json.obj [("Type", Json.num 5)])]

/-- A detection missing its `Type` field. -/
def noTypeDetection : Json := Json.obj [("Detection", Json.obj [])]

/-- A report with both a secrets and a malware detection. -/
def bothDetReport : PyDict :=
  [("Vulnerabilities", Json.null),
   ("Detections", Json.arr [mkDetection "secret", mkDetection "malware"])]

/-! ## Claim theorems -/

/-- C1: the status resolver picks exactly one terminal status by strict
priority, first match wins: secrets → 3, else malware → 2, else score ≥
threshold → 1, else 0.  In particular a report with both a secrets and a
malware detection classifies to `SECRETS_FOUND`, a score equal to the
threshold resolves to `THRESHOLD_EXCEEDED`, and a score one less (without
higher-priority flags) resolves to `CLEAN`. -/
theorem c1_status_resolver_priority :
    (∀ (s m v : Nat) (t : Int),
      (s = ScanStatusCode.Secrets → resolveStatus s m v t = ScanStatusCode.Secrets) ∧
      (s ≠ ScanStatusCode.Secrets → m = ScanStatusCode.Malware →
        resolveStatus s m v t = ScanStatusCode.Malware) ∧
      (s ≠ ScanStatusCode.Secrets → m ≠ ScanStatusCode.Malware → (v : Int) ≥ t →
        resolveStatus s m v t = ScanStatusCode.Vulnerability) ∧
      (s ≠ ScanStatusCode.Secrets → m ≠ ScanStatusCode.Malware → (v : Int) < t →
        resolveStatus s m v t = ScanStatusCode.Success)) ∧
    (∀ (report : PyDict) (dets : List Json) (t : Int),
      jlookup report "Detections" = some (Json.arr dets) →
      (∀ d ∈ dets, ∃ o, detTypeLower d = Except.ok o) →
      specHasSecrets dets = true → specHasMalware dets = true →
      (∃ n, getAlertsVuln report = Except.ok n) →
      classifyExit report t = ScanStatusCode.Secrets) ∧
    (∀ (v : Nat) (t : Int), (v : Int) = t →
      resolveStatus ScanStatusCode.Success ScanStatusCode.Success v t =
        ScanStatusCode.Vulnerability) ∧
    (∀ (v : Nat) (t : Int), (v : Int) = t - 1 →
      resolveStatus ScanStatusCode.Success ScanStatusCode.Success v t =
        ScanStatusCode.Success) := by
  refine ⟨?_, ?_, ?_, ?_⟩
  · intro s m v t
    refine ⟨?_, ?_, ?_, ?_⟩
    · intro hs; simp [resolveStatus, hs]
    · intro hs hm; simp [resolveStatus, hs, hm]
    · intro hs hm hv; simp [resolveStatus, hs, hm, hv]
    · intro hs hm hv
      have : ¬((v : Int) ≥ t) := by omega
      simp [resolveStatus, hs, hm, this]
  · intro report dets t hd hok hsec hmal hv
    obtain ⟨n, hn⟩ := hv
    have hs : getAlertsSecrets report = Except.ok ScanStatusCode.Secrets := by
      rw [getAlertsSecrets_arr report dets hd, detLoop_ok isSecretType _ dets hok]
      simp [specHasSecrets] at hsec
      simp [specHasSecrets, hsec]
    have hm : getAlertsMalware report = Except.ok ScanStatusCode.Malware := by
      rw [getAlertsMalware_arr report dets hd, detLoop_ok isMalwareType _ dets hok]
      simp [specHasMalware] at hmal
      simp [specHasMalware, hmal]
    have hc : getAlertsMisconfig report = Except.ok 0 := by
      rw [getAlertsMisconfig_arr report dets hd, detLoop_ok isMisconfigType _ dets hok]
      simp [ScanStatusCode.Success]
    unfold classifyExit
    rw [hn, hs, hm, hc]
    simp [resolveStatus]
  · intro v t hv
    have : (v : Int) ≥ t := by omega
    simp [resolveStatus, ScanStatusCode.Success, ScanStatusCode.Secrets,
      ScanStatusCode.Malware, this]
  · intro v t hv
    have h1 : ¬((v : Int) ≥ t) := by omega
    simp [resolveStatus, ScanStatusCode.Success, ScanStatusCode.Secrets,
      ScanStatusCode.Malware, h1]

/-- C1 witness: the resolver and the full classification at concrete
inputs — both detections present resolve to 3 for any threshold shown at
9999; boundary scores 500/499 against threshold 500. -/
theorem c1_status_resolver_priority_witness :
    resolveStatus 3 2 0 500 = 3 ∧
    classifyExit bothDetReport 9999 = 3 ∧
    resolveStatus 0 0 500 500 = 1 ∧
    resolveStatus 0 0 499 500 = 0 := by
  refine ⟨(c1_status_resolver_priority.1 3 2 0 500).1 rfl, ?_, ?_, ?_⟩
  · refine c1_status_resolver_priority.2.1 bothDetReport
      [mkDetection "secret", mkDetection "malware"] 9999 rfl ?_ rfl rfl ⟨0, rfl⟩
    intro d hd
    rcases List.mem_cons.mp hd with rfl | hd
    · exact ⟨some "secret", rfl⟩
    rcases List.mem_cons.mp hd with rfl | hd
    · exact ⟨some "malware", rfl⟩
    · simp at hd
  · exact c1_status_resolver_priority.2.2.1 500 500 (by omega)
  · exact c1_status_resolver_priority.2.2.2 499 500 (by omega)

/-- C2 counterexample: a report in which the `Vulnerabilities` key (resp.
`Detections` key) is absent makes classification fail with a `KeyError`
(mapped by `main` to `ScriptFailure` = 10), rather than scoring 0: the
subscript `self[...]` only tolerates a present-but-null value. -/
theorem c2_missing_keys_counterexample :
    getAlertsVuln [("Detections", Json.null)] = Except.error PyErr.keyError ∧
    getAlertsSecrets [("Vulnerabilities", Json.null)] = Except.error PyErr.keyError ∧
    getAlertsMalware [("Vulnerabilities", Json.null)] = Except.error PyErr.keyError ∧
    getAlertsMisconfig [("Vulnerabilities", Json.null)] = Except.error PyErr.keyError ∧
    classifyExit [("Detections", Json.null)] 500 = ScanStatusCode.ScriptFailure :=
  ⟨rfl, rfl, rfl, rfl, rfl⟩

/-- C2 amended: when both keys are present (possibly null or empty lists),
classification does not fail: the vulnerability score is 0 and every
detection flag is 0; a key that is altogether absent instead raises
`KeyError` (exit 10). -/
theorem c2_null_or_empty_is_clean :
    ∀ (report : PyDict) (vv dv : Json),
      jlookup report "Vulnerabilities" = some vv →
      (vv = Json.null ∨ vv = Json.arr []) →
      jlookup report "Detections" = some dv →
      (dv = Json.null ∨ dv = Json.arr []) →
      getAlertsVuln report = Except.ok 0 ∧ getAlertsMalware report = Except.ok 0 ∧
        getAlertsSecrets report = Except.ok 0 ∧ getAlertsMisconfig report = Except.ok 0 := by
  intro report vv dv hv hvc hd hdc
  refine ⟨?_, ?_, ?_, ?_⟩
  · rcases hvc with rfl | rfl
    · unfold getAlertsVuln reportSubscript vuln_str_key_1
      rw [hv]
    · rw [getAlertsVuln_arr report [] hv]
      rfl
  · rcases hdc with rfl | rfl
    · unfold getAlertsMalware reportSubscript detect_str_key
      rw [hd]
    · rw [getAlertsMalware_arr report [] hd]
      rfl
  · rcases hdc with rfl | rfl
    · unfold getAlertsSecrets reportSubscript detect_str_key
      rw [hd]
    · rw [getAlertsSecrets_arr report [] hd]
      rfl
  · rcases hdc with rfl | rfl
    · unfold getAlertsMisconfig reportSubscript detect_str_key
      rw [hd]
    · rw [getAlertsMisconfig_arr report [] hd]
      rfl

/-- C2 witness: the amended claim evaluated at a report with a null
vulnerability list and an empty detections list. -/
theorem c2_null_or_empty_is_clean_witness :
    getAlertsVuln [("Vulnerabilities", Json.null), ("Detections", Json.arr [])] = Except.ok 0 ∧
    getAlertsMalware [("Vulnerabilities", Json.null), ("Detections", Json.arr [])] = Except.ok 0 ∧
    getAlertsSecrets [("Vulnerabilities", Json.null), ("Detections", Json.arr [])] = Except.ok 0 ∧
    getAlertsMisconfig [("Vulnerabilities", Json.null), ("Detections", Json.arr [])] = Except.ok 0 :=
  c2_null_or_empty_is_clean
    [("Vulnerabilities", Json.null), ("Detections", Json.arr [])]
    Json.null (Json.arr []) rfl (Or.inl rfl) rfl (Or.inr rfl)

/-- A finding whose `Details.severity` is the empty string while
`cvss_v3_score.severity` is "high". -/
def emptySevFinding : Json :=
  Json.obj [("Vulnerability", Json.obj [("Details", Json.obj
    [("severity", Json.str ""), ("cvss_v3_score", Json.obj [("severity", Json.str "high")])])])]

/-- A finding with no direct severity whose `cvss_v3_score.severity` is
"high". -/
def v3HighFinding : Json :=
  Json.obj [("Vulnerability", Json.obj [("Details", Json.obj
    [("cvss_v3_score", Json.obj [("severity", Json.str "high")])])])]

/-- C3 counterexample: the chain stops at the first non-None value, not the
first non-EMPTY one.  On a finding whose direct severity is the empty
string and whose `cvss_v3_score.severity` is "high", the claim predicts a
500-point contribution; the code resolves severity to `""` and scores 0. -/
theorem c3_first_nonempty_counterexample :
    getAlertsVuln [("Vulnerabilities", Json.arr [emptySevFinding])] = Except.ok 0 ∧
    getAlertsVuln [("Vulnerabilities", Json.arr [emptySevFinding])] ≠ Except.ok 500 := by
  constructor
  · rfl
  · intro h
    rw [show getAlertsVuln [("Vulnerabilities", Json.arr [emptySevFinding])] = Except.ok 0
      from rfl] at h
    simp at h

/-- C3 amended: the severity label is resolved by a fallback chain with the
first PRESENT AND NON-NULL (non-None) value winning — an empty string is
already resolved and stops the chain — in the order `details.severity`,
`cvss_v3_score.severity`, `cvss_v2_score.severity`, then the empty string;
a finding whose direct severity is absent but whose `cvss_v3_score.severity`
is "high" contributes 500 points. -/
theorem c3_severity_chain_first_non_none :
    (∀ (ds : PyDict) (v : Json), jlookup ds "severity" = some v → v ≠ Json.null →
      resolveSeverity ds = Except.ok v) ∧
    (∀ (ds gs : PyDict) (w : Json),
      (jlookup ds "severity" = none ∨ jlookup ds "severity" = some Json.null) →
      jlookup ds "cvss_v3_score" = some (Json.obj gs) →
      jlookup gs "severity" = some w → w ≠ Json.null →
      resolveSeverity ds = Except.ok w) ∧
    (∀ (ds hs : PyDict) (u : Json),
      (jlookup ds "severity" = none ∨ jlookup ds "severity" = some Json.null) →
      (jlookup ds "cvss_v3_score" = none ∨
        ∃ gs, jlookup ds "cvss_v3_score" = some (Json.obj gs) ∧
          (jlookup gs "severity" = none ∨ jlookup gs "severity" = some Json.null)) →
      jlookup ds "cvss_v2_score" = some (Json.obj hs) →
      jlookup hs "severity" = some u →
      resolveSeverity ds = Except.ok u) ∧
    (∀ ds : PyDict,
      (jlookup ds "severity" = none ∨ jlookup ds "severity" = some Json.null) →
      (jlookup ds "cvss_v3_score" = none ∨
        ∃ gs, jlookup ds "cvss_v3_score" = some (Json.obj gs) ∧
          (jlookup gs "severity" = none ∨ jlookup gs "severity" = some Json.null)) →
      (jlookup ds "cvss_v2_score" = none ∨
        ∃ hs, jlookup ds "cvss_v2_score" = some (Json.obj hs) ∧
          jlookup hs "severity" = none) →
      resolveSeverity ds = Except.ok (Json.str "")) ∧
    vulnEntryScore v3HighFinding = Except.ok 500 := by
  have hv2 : ∀ (ds : PyDict),
      (jlookup ds "cvss_v2_score" = none ∨
        ∃ hs, jlookup ds "cvss_v2_score" = some (Json.obj hs) ∧
          jlookup hs "severity" = none) →
      resolveSeverityV2 ds = Except.ok (Json.str "") := by
    intro ds h
    unfold resolveSeverityV2
    rcases h with h | ⟨hs, h, hsev⟩
    · rw [h]; rfl
    · rw [h]; simp [pyGetD, hsev]
  have hv2some : ∀ (ds hs : PyDict) (u : Json),
      jlookup ds "cvss_v2_score" = some (Json.obj hs) → jlookup hs "severity" = some u →
      resolveSeverityV2 ds = Except.ok u := by
    intro ds hs u h hu
    unfold resolveSeverityV2
    rw [h]
    simp [pyGetD, hu]
  have hv3skip : ∀ (ds : PyDict),
      (jlookup ds "cvss_v3_score" = none ∨
        ∃ gs, jlookup ds "cvss_v3_score" = some (Json.obj gs) ∧
          (jlookup gs "severity" = none ∨ jlookup gs "severity" = some Json.null)) →
      resolveSeverityV3 ds = resolveSeverityV2 ds := by
    intro ds h
    unfold resolveSeverityV3
    rcases h with h | ⟨gs, h, hg⟩
    · rw [h]; rfl
    · rw [h]
      rcases hg with hg | hg <;> simp [pyGetOpt, hg]
  have hsevskip : ∀ (ds : PyDict),
      (jlookup ds "severity" = none ∨ jlookup ds "severity" = some Json.null) →
      resolveSeverity ds = resolveSeverityV3 ds := by
    intro ds h
    unfold resolveSeverity
    rcases h with h | h <;> rw [h]
  refine ⟨?_, ?_, ?_, ?_, rfl⟩
  · intro ds v h hne
    unfold resolveSeverity
    rw [h]
    cases v with
    | null => exact absurd rfl hne
    | bool b => rfl
    | num n => rfl
    | str s => rfl
    | arr xs => rfl
    | obj fs => rfl
  · intro ds gs w hskip h3 hg hne
    rw [hsevskip ds hskip]
    unfold resolveSeverityV3
    rw [h3]
    cases w with
    | null => exact absurd rfl hne
    | bool b => simp [pyGetOpt, hg]
    | num n => simp [pyGetOpt, hg]
    | str s => simp [pyGetOpt, hg]
    | arr xs => simp [pyGetOpt, hg]
    | obj fs => simp [pyGetOpt, hg]
  · intro ds hs u hskip h3 h2 hu
    rw [hsevskip ds hskip, hv3skip ds h3]
    exact hv2some ds hs u h2 hu
  · intro ds hskip h3 h2
    rw [hsevskip ds hskip, hv3skip ds h3]
    exact hv2 ds h2

/-- C3 witness: the amended chain evaluated at concrete details dicts:
a direct label wins; with the direct label absent the v3 label wins; with
both null-or-absent the v2 label wins; with all three absent the label is
the empty string. -/
theorem c3_severity_chain_first_non_none_witness :
    resolveSeverity [("severity", Json.str "low")] = Except.ok (Json.str "low") ∧
    resolveSeverity [("cvss_v3_score", Json.obj [("severity", Json.str "medium")])] =
      Except.ok (Json.str "medium") ∧
    resolveSeverity [("severity", Json.null),
      ("cvss_v2_score", Json.obj [("severity", Json.str "high")])] =
      Except.ok (Json.str "high") ∧
    resolveSeverity [] = Except.ok (Json.str "") := by
  refine ⟨?_, ?_, ?_, ?_⟩
  · exact c3_severity_chain_first_non_none.1 _ _ rfl (fun h => Json.noConfusion h)
  · exact c3_severity_chain_first_non_none.2.1 _ [("severity", Json.str "medium")] _
      (Or.inl rfl) rfl rfl (fun h => Json.noConfusion h)
  · exact c3_severity_chain_first_non_none.2.2.1 _ [("severity", Json.str "high")] _
      (Or.inr rfl) (Or.inl rfl) rfl rfl
  · exact c3_severity_chain_first_non_none.2.2.2.1 [] (Or.inl rfl) (Or.inl rfl) (Or.inl rfl)

/-- C4: the vulnerability score is the uncapped sum over all findings of
the per-finding contribution; a finding carrying label `s` contributes
exactly the case-insensitive table value low=20, medium=100, high=500,
critical=2000, anything else (garbage included) 0, without raising; and
uppercasing a label never changes the contribution. -/
theorem c4_score_sum_and_mapping :
    (∀ (report : PyDict) (vs : List Json),
      jlookup report "Vulnerabilities" = some (Json.arr vs) →
      (∀ v ∈ vs, ∃ k, vulnEntryScore v = Except.ok k) →
      getAlertsVuln report = Except.ok ((vs.map entryVal).sum)) ∧
    (∀ s : String, vulnEntryScore (mkFinding s) = Except.ok (specPointsOf (strLower s))) ∧
    (∀ s : String, vulnEntryScore (mkFinding (strUpper s)) = vulnEntryScore (mkFinding s)) := by
  refine ⟨?_, ?_, ?_⟩
  · intro report vs h hok
    rw [getAlertsVuln_arr report vs h, scoreList_ok vs 0 hok]
    simp
  · intro s
    have h : vulnEntryScore (mkFinding s) = Except.ok (sevPoints (strLower s)) := rfl
    rw [h, sevPoints_eq_specPointsOf]
  · intro s
    show Except.ok (sevPoints (strLower (strUpper s))) = Except.ok (sevPoints (strLower s))
    rw [strLower_strUpper]

/-- C4 witness: a two-finding report summing 500 + 20 = 520, an
unrecognized label contributing 0, and "HIGH" against "high". -/
theorem c4_score_sum_and_mapping_witness :
    getAlertsVuln [("Vulnerabilities", Json.arr [mkFinding "HIGH", mkFinding "low"])] =
      Except.ok 520 ∧
    vulnEntryScore (mkFinding "garbage") = Except.ok 0 ∧
    vulnEntryScore (mkFinding (strUpper "high")) = vulnEntryScore (mkFinding "high") := by
  refine ⟨?_, ?_, c4_score_sum_and_mapping.2.2 "high"⟩
  · have h := c4_score_sum_and_mapping.1
      [("Vulnerabilities", Json.arr [mkFinding "HIGH", mkFinding "low"])]
      [mkFinding "HIGH", mkFinding "low"] rfl ?_
    · exact h.trans (by rfl)
    · intro v hv
      rcases List.mem_cons.mp hv with rfl | hv
      · exact ⟨500, rfl⟩
      rcases List.mem_cons.mp hv with rfl | hv
      · exact ⟨20, rfl⟩
      · simp at hv
  · exact (c4_score_sum_and_mapping.2.1 "garbage").trans (by rfl)

/-- C5 counterexample: there is no misconfiguration "flag": on a matching
report `get_alerts_misconfig` returns `ScanStatusCode.Success.value = 0`,
the very value it returns when nothing matches, so "the flag is true iff a
detection matches" fails on any matching report. -/
theorem c5_misconfig_flag_counterexample :
    specHasMisconfig [mkDetection "cis"] = true ∧
    getAlertsMisconfig [("Detections", Json.arr [mkDetection "cis"])] = Except.ok 0 ∧
    getAlertsMisconfig [("Detections", Json.arr [])] = Except.ok 0 :=
  ⟨rfl, rfl, rfl⟩

/-- C5 amended: the misconfiguration scan matches case-insensitively
against {"misconfiguration", "cis"}, skips detections missing their type
field, and short-circuits on the first match — but on match it assigns
`Success.value` (0), so the returned value is 0 for every report on which
the scan completes, and the match is never visible in the return value.
The second conjunct shows a missing-type entry being skipped, a "CIS" match
and the short-circuit protecting a malformed later entry; the third shows
the same malformed entry is fatal when no earlier match masks it. -/
theorem c5_misconfig_match_never_surfaces :
    (∀ (report : PyDict) (dets : List Json),
      jlookup report "Detections" = some (Json.arr dets) →
      (∀ d ∈ dets, ∃ o, detTypeLower d = Except.ok o) →
      getAlertsMisconfig report = Except.ok 0) ∧
    getAlertsMisconfig [("Detections",
      Json.arr [noTypeDetection, mkDetection "CIS", badTypeDetection])] = Except.ok 0 ∧
    getAlertsMisconfig [("Detections", Json.arr [badTypeDetection])] =
      Except.error PyErr.attributeError := by
  refine ⟨?_, rfl, rfl⟩
  intro report dets h hok
  rw [getAlertsMisconfig_arr report dets h, detLoop_ok isMisconfigType _ dets hok]
  simp [ScanStatusCode.Success]

/-- C5 witness: the amended claim's universal part evaluated at a report
holding one "misconfiguration" detection. -/
theorem c5_misconfig_match_never_surfaces_witness :
    getAlertsMisconfig [("Detections", Json.arr [mkDetection "misconfiguration"])] =
      Except.ok 0 := by
  refine c5_misconfig_match_never_surfaces.1
    [("Detections", Json.arr [mkDetection "misconfiguration"])]
    [mkDetection "misconfiguration"] rfl ?_
  intro d hd
  rcases List.mem_cons.mp hd with rfl | hd
  · exact ⟨some "misconfiguration", rfl⟩
  · simp at hd

/-- C6: the malware (resp. secrets) flag is `Malware.value = 2`
(resp. `Secrets.value = 3`) exactly when some detection's type equals
"malware" (resp. "secret") case-insensitively, and 0 otherwise;
detections missing their type are skipped.  The closed conjuncts show the
scan short-circuiting on the first match (the later malformed entry is
never reached), returning the same presence value for two matches as for
one, and skipping a missing-type entry. -/
theorem c6_detection_flags :
    (∀ (report : PyDict) (dets : List Json),
      jlookup report "Detections" = some (Json.arr dets) →
      (∀ d ∈ dets, ∃ o, detTypeLower d = Except.ok o) →
      getAlertsMalware report =
        Except.ok (if specHasMalware dets then ScanStatusCode.Malware else 0) ∧
      getAlertsSecrets report =
        Except.ok (if specHasSecrets dets then ScanStatusCode.Secrets else 0)) ∧
    getAlertsMalware [("Detections",
      Json.arr [mkDetection "MalWare", mkDetection "malware", badTypeDetection])] =
      Except.ok ScanStatusCode.Malware ∧
    getAlertsSecrets [("Detections",
      Json.arr [noTypeDetection, mkDetection "Secret", mkDetection "secret",
        badTypeDetection])] = Except.ok ScanStatusCode.Secrets := by
  refine ⟨?_, rfl, rfl⟩
  intro report dets h hok
  constructor
  · rw [getAlertsMalware_arr report dets h, detLoop_ok isMalwareType _ dets hok]
    rfl
  · rw [getAlertsSecrets_arr report dets h, detLoop_ok isSecretType _ dets hok]
    rfl

/-- C6 witness: the iff evaluated both ways at concrete reports: a
malware-only report flags malware (2) and not secrets (0). -/
theorem c6_detection_flags_witness :
    getAlertsMalware [("Detections", Json.arr [mkDetection "malware"])] = Except.ok 2 ∧
    getAlertsSecrets [("Detections", Json.arr [mkDetection "malware"])] = Except.ok 0 := by
  have h := c6_detection_flags.1 [("Detections", Json.arr [mkDetection "malware"])]
    [mkDetection "malware"] rfl ?_
  · exact ⟨h.1.trans (by rfl), h.2.trans (by rfl)⟩
  · intro d hd
    rcases List.mem_cons.mp hd with rfl | hd
    · exact ⟨some "malware", rfl⟩
    · simp at hd

/-- C7 counterexample: scoring is NOT total on malformed entries: a
vulnerabilities list containing `{}` (an entry without the
`"Vulnerability"` wrapper) makes `get_alerts_vuln` raise `KeyError` — the
loop body has no exception handler — so the run ends in `ScriptFailure`
instead of returning an integer. -/
theorem c7_totality_counterexample :
    getAlertsVuln [("Vulnerabilities", Json.arr [Json.obj []])] =
      Except.error PyErr.keyError ∧
    classifyExit [("Vulnerabilities", Json.arr [Json.obj []]),
      ("Detections", Json.null)] 500 = ScanStatusCode.ScriptFailure :=
  ⟨rfl, rfl⟩

/-- C7 amended: scoring is total on reports whose entries are well-formed
dictionaries — a dict with a dict `"Vulnerability"` wrapper whose optional
`Details`, severity subfields and `Product` are well-typed (`wfEntry`);
within that fragment an entry whose `Details` is missing or not a dict
degrades to the empty severity and contributes zero.  An entry violating
the wrapper shape raises instead (see the counterexample). -/
theorem c7_total_on_wellformed :
    (∀ (report : PyDict) (vs : List Json),
      jlookup report "Vulnerabilities" = some (Json.arr vs) →
      (∀ v ∈ vs, wfEntry v = true) →
      ∃ n, getAlertsVuln report = Except.ok n) ∧
    (∀ ws : PyDict, notDictOpt (jlookup ws "Details") = true →
      wfProduct (jlookup ws "Product") = true →
      vulnEntryScore (Json.obj [("Vulnerability", Json.obj ws)]) = Except.ok 0) := by
  constructor
  · intro report vs h hwf
    refine ⟨0 + (vs.map entryVal).sum, ?_⟩
    rw [getAlertsVuln_arr report vs h]
    exact scoreList_ok vs 0 (fun v hv => vulnEntryScore_wf v (hwf v hv))
  · intro ws hnd hprod
    have hsev : (match jlookup ws "Details" with
        | some (Json.obj ds) => resolveSeverity ds
        | _ => Except.ok (Json.str "")) = Except.ok (Json.str "") := by
      unfold notDictOpt at hnd
      cases hd : jlookup ws "Details" with
      | none => rfl
      | some d =>
        rw [hd] at hnd
        cases d with
        | obj ds => simp at hnd
        | null => rfl
        | bool b => rfl
        | num n => rfl
        | str s => rfl
        | arr xs => rfl
    rw [vulnEntryScore_obj [("Vulnerability", Json.obj ws)] ws rfl (Json.str "") hsev hprod]
    rfl

/-- C7 witness: the amended claim at a report whose single finding has a
null `Details` (unresolvable severity, zero contribution). -/
theorem c7_total_on_wellformed_witness :
    (∃ n, getAlertsVuln [("Vulnerabilities",
      Json.arr [Json.obj [("Vulnerability", Json.obj [("Details", Json.null)])]])] =
        Except.ok n) ∧
    vulnEntryScore (Json.obj [("Vulnerability", Json.obj [("Details", Json.null)])]) =
      Except.ok 0 := by
  constructor
  · refine c7_total_on_wellformed.1 _
      [Json.obj [("Vulnerability", Json.obj [("Details", Json.null)])]] rfl ?_
    intro v hv
    rcases List.mem_cons.mp hv with rfl | hv
    · rfl
    · simp at hv
  · exact c7_total_on_wellformed.2 [("Details", Json.null)] rfl rfl

/-- C8: the report fetcher sleeps a fixed 10-unit interval before each
remote call (the sleep trace is `replicate`(calls made)`10`), treats every
non-200 response as not ready and continues, returns the report body of
the first ready response, and — when all `N` attempts fail — raises
`RetryExhausted` carrying the attempt count, which `main` maps to
`ScriptFailure` (10). -/
theorem c8_fetcher_polling :
    (∀ (resp : Nat → Nat × Json) (N : Nat) (t : Int),
      (∀ i, i < N → (resp i).1 ≠ 200) →
      getScanreport resp N =
        (List.replicate N 10, Except.error (FetchErr.retryExhausted N)) ∧
      runMain resp N t = ScanStatusCode.ScriptFailure) ∧
    (∀ (resp : Nat → Nat × Json) (N i : Nat),
      i < N → (resp i).1 = 200 → (∀ j, j < i → (resp j).1 ≠ 200) →
      getScanreport resp N =
        (List.replicate (i + 1) 10, Except.ok (resp i).2)) := by
  constructor
  · intro resp N t h
    have hget : getScanreport resp N =
        (List.replicate N 10, Except.error (FetchErr.retryExhausted N)) := by
      unfold getScanreport
      exact fetchGo_allFail resp N N 0 (fun i h1 h2 => h i (by omega))
    refine ⟨hget, ?_⟩
    unfold runMain
    rw [hget]
  · intro resp N i hi h200 hprev
    unfold getScanreport
    have h200' : (resp (0 + i)).1 = 200 := by simpa using h200
    have hprev' : ∀ j, j < i → (resp (0 + j)).1 ≠ 200 := by
      intro j hj; simpa using hprev j hj
    have := fetchGo_firstOk resp N N i 0 hi h200' hprev'
    simpa using this

/-- C8 witness: a responder that always answers 503 exhausts 3 attempts
(sleeping 10 before each of the 3 calls) and the run exits 10; a responder
that becomes ready on the second attempt returns that body after two
sleeps. -/
theorem c8_fetcher_polling_witness :
    getScanreport (fun _ => (503, Json.null)) 3 =
      ([10, 10, 10], Except.error (FetchErr.retryExhausted 3)) ∧
    runMain (fun _ => (503, Json.null)) 3 500 = 10 ∧
    getScanreport (fun i => if i = 1 then (200, Json.obj []) else (500, Json.null)) 3 =
      ([10, 10], Except.ok (Json.obj [])) := by
  have h1 := c8_fetcher_polling.1 (fun _ => (503, Json.null)) 3 500
    (fun i _ => by simp)
  have h2 := c8_fetcher_polling.2
    (fun i => if i = 1 then (200, Json.obj []) else (500, Json.null)) 3 1
    (by omega) (by simp) ?_
  · exact ⟨h1.1.trans (by rfl), h1.2, h2.trans (by rfl)⟩
  · intro j hj
    have : j = 0 := by omega
    rw [this]
    simp

/-- C9 counterexample: misconfiguration findings CAN change the process
exit code.  The two reports below differ only by inserting a "cis"
detection before a malformed one: without it the misconfig scan (which
`main` always runs) hits the malformed entry and dies with exit 10; with
it the scan breaks at the match and the run exits 3. -/
theorem c9_misconfig_counterexample :
    classifyExit [("Vulnerabilities", Json.null), ("Detections", Json.arr
      [mkDetection "secret", mkDetection "malware", badTypeDetection])] 500 =
      ScanStatusCode.ScriptFailure ∧
    classifyExit [("Vulnerabilities", Json.null), ("Detections", Json.arr
      [mkDetection "secret", mkDetection "malware", mkDetection "cis",
        badTypeDetection])] 500 = ScanStatusCode.Secrets :=
  ⟨rfl, rfl⟩

/-- C9 amended: whenever `get_alerts_misconfig` returns normally it
returns 0 (the source assigns `Success.value = 0` on a match), so the
combined bitwise-OR status equals the OR of the other three codes alone;
the one way misconfiguration findings can still alter the outcome is by
short-circuiting past a malformed later detection that would otherwise
raise (see the counterexample). -/
theorem c9_misconfig_contributes_nothing :
    (∀ (report : PyDict) (n : Nat),
      getAlertsMisconfig report = Except.ok n → n = 0) ∧
    (∀ (report : PyDict) (v m s c : Nat),
      getAlertsVuln report = Except.ok v → getAlertsMalware report = Except.ok m →
      getAlertsSecrets report = Except.ok s → getAlertsMisconfig report = Except.ok c →
      statusCode report = Except.ok (v ||| m ||| s)) := by
  constructor
  · exact getAlertsMisconfig_zero
  · intro report v m s c hv hm hs hc
    have hc0 : c = 0 := getAlertsMisconfig_zero report c hc
    unfold statusCode
    rw [hv, hm, hs, hc, hc0]
    simp

/-- C9 witness: a report with secret, malware and cis detections: the
misconfig scan returns 0 and the combined OR is `0 ||| 2 ||| 3 = 3`. -/
theorem c9_misconfig_contributes_nothing_witness :
    getAlertsMisconfig [("Vulnerabilities", Json.null), ("Detections", Json.arr
      [mkDetection "secret", mkDetection "malware", mkDetection "cis"])] = Except.ok 0 ∧
    statusCode [("Vulnerabilities", Json.null), ("Detections", Json.arr
      [mkDetection "secret", mkDetection "malware", mkDetection "cis"])] =
      Except.ok 3 := by
  refine ⟨rfl, ?_⟩
  have h := c9_misconfig_contributes_nothing.2
    [("Vulnerabilities", Json.null), ("Detections", Json.arr
      [mkDetection "secret", mkDetection "malware", mkDetection "cis"])]
    0 2 3 0 rfl rfl rfl rfl
  exact h.trans (by rfl)

/-- C10: the detection loops catch only `KeyError`: a detection whose
`Detection.Type` is present but a number makes all three scans raise
`AttributeError` (from `.lower()`), and `main`'s catch-all maps the run to
`ScriptFailure` (10). -/
theorem c10_nonstring_type_is_fatal :
    getAlertsMalware [("Vulnerabilities", Json.null),
      ("Detections", Json.arr [badTypeDetection])] = Except.error PyErr.attributeError ∧
    getAlertsSecrets [("Vulnerabilities", Json.null),
      ("Detections", Json.arr [badTypeDetection])] = Except.error PyErr.attributeError ∧
    getAlertsMisconfig [("Vulnerabilities", Json.null),
      ("Detections", Json.arr [badTypeDetection])] = Except.error PyErr.attributeError ∧
    classifyExit [("Vulnerabilities", Json.null),
      ("Detections", Json.arr [badTypeDetection])] 500 = ScanStatusCode.ScriptFailure :=
  ⟨rfl, rfl, rfl, rfl⟩
